import Mathlib

/-
Verification development for the hybrid pattern-retrieval engine of the
component-forge backend.

Source of authority:
  - backend/src/services/retrieval_service.py  (RetrievalService.search)
  - backend/src/api/v1/routes/retrieval.py     (search_patterns, health_check,
    get_retrieval_service, set_retrieval_service, module state)
  - backend/src/main.py                        (lifespan startup)

The retrieval subpackage (query_builder, bm25_retriever, semantic_retriever,
weighted_fusion, explainer) is imported by the service but its code is not in
the repository snapshot; those components are modelled from the spec and each
such definition is marked with a doc comment starting "Modelled from the spec".

Python floats are modelled as rationals; machine latency is not modelled.
-/

/-- Corpus entry: id plus descriptive fields and the metadata bag of declared
props, variants and accessibility features. -/
structure Pattern where
  id : String
  name : String := ""
  category : String := ""
  description : String := ""
  props : List String := []
  variants : List String := []
  a11y : List String := []
  deriving DecidableEq

/-- Per-request requirements dict; `component_type := none` models the key
being absent from the dict. -/
structure Requirements where
  component_type : Option String := none
  props : List String := []
  variants : List String := []
  a11y : List String := []
  description : Option String := none
  deriving DecidableEq

/-- Python exceptions escaping the retrieval pipeline. -/
inductive SearchErr where
  | validation (msg : String)
  | semanticFailure (msg : String)
  deriving DecidableEq

/-- Output of QueryBuilder.build_from_requirements. -/
structure Queries where
  bm25_query : String
  semantic_query : String
  filters : Option String
  deriving DecidableEq

/-- Modelled from the spec: QueryBuilder.build_from_requirements (the module
backend/src/retrieval/query_builder.py is not in the snapshot). Fails with a
validation error when component_type is missing; the lexical query is a
deduplicated bag of terms from component_type, props, variants and
accessibility names; the semantic query is a synthesized sentence; the filter
is the exact component_type. -/
def QueryBuilder.build_from_requirements (r : Requirements) : Except SearchErr Queries :=
  match r.component_type with
  | none => .error (.validation "component_type is required")
  | some ct =>
      .ok { bm25_query := String.intercalate " " ((ct :: (r.props ++ r.variants ++ r.a11y)).dedup)
          , semantic_query :=
              "A " ++ ct ++ " component with " ++
                String.intercalate ", " (r.props ++ r.variants ++ r.a11y) ++
                (match r.description with
                 | none => ""
                 | some d => " " ++ d)
          , filters := some ct }

/-- Candidate-list width passed to both channels by RetrievalService.search
(the literal `top_k=10` at retrieval_service.py lines 105 and 115). -/
def candidateWidth : Nat := 10

/-- Python `rank or 999` (retrieval_service.py lines 155 and 157): a falsy
rank (None, or 0) is replaced by the sentinel 999. -/
def rankOr999 (r : Option Nat) : Nat :=
  match r with
  | none => 999
  | some n => if n = 0 then 999 else n

/-- One entry of the `fusion_details` list consumed by the explanation loop
(retrieval_service.py lines 123-170). -/
structure FusionDetail where
  pattern : Pattern
  final_score : ℚ
  final_rank : Nat
  bm25_score : ℚ
  bm25_rank : Option Nat
  semantic_score : ℚ
  semantic_rank : Option Nat
  weights_bm25 : ℚ
  weights_semantic : ℚ
  deriving DecidableEq

/-- Modelled from the spec: WeightedFusion configuration, default weights
0.3 lexical / 0.7 semantic (weighted_fusion.py is not in the snapshot). -/
structure WeightedFusion where
  bm25_weight : ℚ := 3/10
  semantic_weight : ℚ := 7/10
  deriving DecidableEq

/-- Fused candidate before final ranks are assigned. -/
structure PreDetail where
  pattern : Pattern
  bm25_score : ℚ
  bm25_rank : Option Nat
  semantic_score : ℚ
  semantic_rank : Option Nat
  final_score : ℚ
  deriving DecidableEq

/-- Sentinel used only for ordering: an unranked channel sorts after every
ranked one. -/
def rankSentinel (r : Option Nat) : Nat :=
  match r with
  | none => 1000000
  | some n => n

/-- Sort key for fused candidates: descending final m score, then better
lexical rank, then ascending pattern id (spec section 4.4 tie-break). -/
def fuseKey (d : PreDetail) : Lex (ℚ × Lex (Nat × String)) :=
  toLex (-d.final_score, toLex (rankSentinel d.bm25_rank, d.pattern.id))

/-- Boolean order used by the fusion sort. -/
def fuseLE (a b : PreDetail) : Bool :=
  decide (fuseKey a ≤ fuseKey b)

/-- 1-based rank of a pattern id within one channel's candidate list. -/
def channelRank (l : List (Pattern × ℚ)) (pid : String) : Option Nat :=
  (List.findIdx? (fun pr => pr.1.id == pid) l).map (fun i => i + 1)

/-- Raw score of a pattern id within one channel's candidate list. -/
def channelScore (l : List (Pattern × ℚ)) (pid : String) : Option ℚ :=
  (List.find? (fun pr => pr.1.id == pid) l).map (fun pr => pr.2)

/-- Smallest raw score in a channel's candidate list. -/
def minScore (l : List (Pattern × ℚ)) : ℚ :=
  match l with
  | [] => 0
  | x :: xs => List.foldl (fun m pr => min m pr.2) x.2 xs

/-- Largest raw score in a channel's candidate list. -/
def maxScore (l : List (Pattern × ℚ)) : ℚ :=
  match l with
  | [] => 0
  | x :: xs => List.foldl (fun m pr => max m pr.2) x.2 xs

/-- Modelled from the spec: per-query min-max normalization of one channel's
raw score over that channel's candidate set (spec section 4.4; the exact
strategy is the spec's declared open question, so the degenerate all-equal
case maps to 1). -/
def mmNorm (l : List (Pattern × ℚ)) (s : ℚ) : ℚ :=
  if maxScore l = minScore l then 1 else (s - minScore l) / (maxScore l - minScore l)

/-- Modelled from the spec: the fused candidate for one unioned pattern,
carrying each channel's raw score and rank (0.0 / not-ranked when absent) and
the weighted combination of the normalized scores. -/
def mkPreDetail (wf : WeightedFusion) (bm25_results semantic_results : List (Pattern × ℚ))
    (p : Pattern) : PreDetail :=
  let bs := channelScore bm25_results p.id
  let ss := channelScore semantic_results p.id
  let lexNorm : ℚ :=
    match bs with
    | none => 0
    | some s => mmNorm bm25_results s
  let semNorm : ℚ :=
    match ss with
    | none => 0
    | some s => mmNorm semantic_results s
  { pattern := p
  , bm25_score := bs.getD 0
  , bm25_rank := channelRank bm25_results p.id
  , semantic_score := ss.getD 0
  , semantic_rank := channelRank semantic_results p.id
  , final_score := wf.bm25_weight * lexNorm + wf.semantic_weight * semNorm }

/-- Modelled from the spec: union of the patterns appearing in either
channel's candidate list. -/
def unionPatterns (bm25_results semantic_results : List (Pattern × ℚ)) : List Pattern :=
  bm25_results.map (fun pr => pr.1) ++
    (semantic_results.filter (fun pr => (channelRank bm25_results pr.1.id).isNone)).map
      (fun pr => pr.1)

/-- Assigns contiguous final ranks, starting at `n`, down a sorted list of
fused candidates, attaching the fusion weights in force. -/
def assignRanks (wf : WeightedFusion) : Nat → List PreDetail → List FusionDetail
  | _, [] => []
  | n, d :: ds =>
      { pattern := d.pattern
      , final_score := d.final_score
      , final_rank := n
      , bm25_score := d.bm25_score
      , bm25_rank := d.bm25_rank
      , semantic_score := d.semantic_score
      , semantic_rank := d.semantic_rank
      , weights_bm25 := wf.bm25_weight
      , weights_semantic := wf.semantic_weight } :: assignRanks wf (n + 1) ds

/-- Modelled from the spec: WeightedFusion.fuse_with_details (spec section
4.4; weighted_fusion.py is not in the snapshot). Union, per-channel min-max
normalization, weighted combination, deterministic sort, truncation to top_k,
contiguous final ranks from 1. -/
def WeightedFusion.fuse_with_details (wf : WeightedFusion)
    (bm25_results semantic_results : List (Pattern × ℚ)) (top_k : Nat) : List FusionDetail :=
  let pre := (unionPatterns bm25_results semantic_results).map
    (mkPreDetail wf bm25_results semantic_results)
  assignRanks wf 1 ((pre.mergeSort fuseLE).take top_k)

/-- BM25-only fallback entries built by the list comprehension at
retrieval_service.py lines 132-144, enumerating from rank `n`. -/
def fallbackEnum : Nat → List (Pattern × ℚ) → List FusionDetail
  | _, [] => []
  | n, pr :: rest =>
      { pattern := pr.1
      , final_score := pr.2
      , final_rank := n
      , bm25_score := pr.2
      , bm25_rank := some n
      , semantic_score := 0
      , semantic_rank := none
      , weights_bm25 := 1
      , weights_semantic := 0 } :: fallbackEnum (n + 1) rest

/-- BM25-only fallback of retrieval_service.py lines 130-144: enumerate
`bm25_results[:top_k]` from rank 1. -/
def fallbackDetails (bm25_results : List (Pattern × ℚ)) (top_k : Nat) : List FusionDetail :=
  fallbackEnum 1 (bm25_results.take top_k)

/-- Exact-name intersections of requested and declared features. -/
structure MatchHighlights where
  matched_props : List String
  matched_variants : List String
  matched_a11y : List String
  deriving DecidableEq

/-- Ranking details echoed per result for explainability (route schema
RankingDetails, with the sentineled ranks the explainer received). -/
structure RankingDetails where
  bm25_score : ℚ
  bm25_rank : Nat
  semantic_score : ℚ
  semantic_rank : Nat
  final_score : ℚ
  final_rank : Nat
  deriving DecidableEq

/-- Arguments the service passes to the explainer (retrieval_service.py
lines 151-160). -/
structure ExplainArgs where
  pattern : Pattern
  requirements : Requirements
  bm25_score : ℚ
  bm25_rank : Nat
  semantic_score : ℚ
  semantic_rank : Nat
  final_score : ℚ
  final_rank : Nat
  deriving DecidableEq

/-- Output of the explainer. -/
structure ExplainOut where
  confidence : ℚ
  explanation : String
  match_highlights : MatchHighlights
  ranking_details : RankingDetails
  deriving DecidableEq

/-- Clamp a rational onto the unit interval. -/
def clamp01 (x : ℚ) : ℚ := min 1 (max 0 x)

/-- Modelled from the spec: confidence is derived purely from final_score and
final_rank, bounded in the unit interval, maximal at rank 1 (spec section
4.5; explainer.py is not in the snapshot). -/
def confidenceOf (final_score : ℚ) (final_rank : Nat) : ℚ :=
  clamp01 final_score / (final_rank : ℚ)

/-- Modelled from the spec: exact-name intersections between requested and
declared props, variants and accessibility features. -/
def matchHighlightsOf (p : Pattern) (r : Requirements) : MatchHighlights :=
  { matched_props := r.props.filter (fun s => p.props.contains s)
  , matched_variants := r.variants.filter (fun s => p.variants.contains s)
  , matched_a11y := r.a11y.filter (fun s => p.a11y.contains s) }

/-- Which channels drove the match, read off the sentineled ranks. -/
def channelPhrase (bm25_rank semantic_rank : Nat) : String :=
  if bm25_rank = 999 then "semantic similarity"
  else if semantic_rank = 999 then "keyword overlap"
  else "keyword overlap and semantic similarity"

/-- Modelled from the spec: RetrievalExplainer.explain (spec section 4.5;
explainer.py is not in the snapshot). Deterministic, templated, no external
model call; echoes the numeric ranking details it received. -/
def RetrievalExplainer.explain (args : ExplainArgs) : ExplainOut :=
  let h := matchHighlightsOf args.pattern args.requirements
  { confidence := confidenceOf args.final_score args.final_rank
  , explanation :=
      "Matched via " ++ channelPhrase args.bm25_rank args.semantic_rank ++ " with " ++
        toString (h.matched_props.length + h.matched_variants.length + h.matched_a11y.length) ++
        " matching features"
  , match_highlights := h
  , ranking_details :=
      { bm25_score := args.bm25_score
      , bm25_rank := args.bm25_rank
      , semantic_score := args.semantic_score
      , semantic_rank := args.semantic_rank
      , final_score := args.final_score
      , final_rank := args.final_rank } }

/-- One enriched pattern of the response (retrieval_service.py lines
162-170: the pattern's fields spread together with the explainer output). -/
structure EnrichedPattern where
  pattern : Pattern
  confidence : ℚ
  explanation : String
  match_highlights : MatchHighlights
  ranking_details : RankingDetails
  deriving DecidableEq

/-- Response metadata (retrieval_service.py lines 180-189; latency is real
time and is not modelled). -/
structure RetrievalMetadata where
  methods_used : List String
  weights_bm25 : ℚ
  weights_semantic : ℚ
  total_patterns_searched : Nat
  query : String
  deriving DecidableEq

/-- Full response of RetrievalService.search. -/
structure RetrievalResponse where
  patterns : List EnrichedPattern
  retrieval_metadata : RetrievalMetadata
  deriving DecidableEq

/-- Arguments handed to the explainer for one fusion detail, applying the
`or 999` sentinel of retrieval_service.py lines 155 and 157. -/
def explainArgsOf (req : Requirements) (d : FusionDetail) : ExplainArgs :=
  { pattern := d.pattern
  , requirements := req
  , bm25_score := d.bm25_score
  , bm25_rank := rankOr999 d.bm25_rank
  , semantic_score := d.semantic_score
  , semantic_rank := rankOr999 d.semantic_rank
  , final_score := d.final_score
  , final_rank := d.final_rank }

/-- Enrichment of one fusion detail (retrieval_service.py lines 150-170). -/
def enrichDetail (req : Requirements) (d : FusionDetail) : EnrichedPattern :=
  let ex := RetrievalExplainer.explain (explainArgsOf req d)
  { pattern := d.pattern
  , confidence := ex.confidence
  , explanation := ex.explanation
  , match_highlights := ex.match_highlights
  , ranking_details := ex.ranking_details }

/-- The orchestrator with its injected collaborators. The BM25 retriever and
the optional semantic retriever are dependency-injected functions, as in the
constructor of RetrievalService; a semantic failure is an `Except.error`. -/
structure RetrievalService where
  patterns : List Pattern
  bm25Retriever : String → Nat → List (Pattern × ℚ)
  semanticRetriever : Option (String → Nat → Option String → Except SearchErr (List (Pattern × ℚ)))
  fusion : WeightedFusion

/-- Response assembly from the channel results (retrieval_service.py lines
123-190): fuse when the semantic list is non-empty, otherwise the BM25-only
fallback; metadata weights always read off the fusion object. -/
def assembleResponse (svc : RetrievalService) (qs : Queries) (req : Requirements)
    (bm25_results semantic_results : List (Pattern × ℚ)) (methods_used : List String)
    (top_k : Nat) : RetrievalResponse :=
  let fusion_details :=
    if semantic_results.isEmpty then fallbackDetails bm25_results top_k
    else svc.fusion.fuse_with_details bm25_results semantic_results top_k
  { patterns := fusion_details.map (enrichDetail req)
  , retrieval_metadata :=
      { methods_used := methods_used
      , weights_bm25 := svc.fusion.bm25_weight
      , weights_semantic := svc.fusion.semantic_weight
      , total_patterns_searched := svc.patterns.length
      , query := if qs.semantic_query = "" then qs.bm25_query else qs.semantic_query } }

/-- RetrievalService.search (retrieval_service.py lines 64-190). Both
channels are queried at the fixed candidateWidth; the semantic call is not
guarded, so its error propagates; when the retriever is present, "semantic"
is appended to methods_used whether or not it returned results. -/
def RetrievalService.search (svc : RetrievalService) (req : Requirements) (top_k : Nat) :
    Except SearchErr RetrievalResponse :=
  match QueryBuilder.build_from_requirements req with
  | .error e => .error e
  | .ok qs =>
      match svc.semanticRetriever with
      | none =>
          .ok (assembleResponse svc qs req (svc.bm25Retriever qs.bm25_query candidateWidth)
            [] ["bm25"] top_k)
      | some f =>
          match f qs.semantic_query candidateWidth qs.filters with
          | .error e => .error e
          | .ok semantic_results =>
              .ok (assembleResponse svc qs req (svc.bm25Retriever qs.bm25_query candidateWidth)
                semantic_results ["bm25", "semantic"] top_k)

/-- HTTP-level error. -/
structure HTTPError where
  status : Nat
  detail : String
  deriving DecidableEq

/-- Message of an escaped pipeline exception, as interpolated into the 500
detail string by the route. -/
def searchErrMsg (e : SearchErr) : String :=
  match e with
  | .validation m => m
  | .semanticFailure m => m

/-- POST /retrieval/search handler (retrieval.py lines 106-177), with the
dependency already resolved: a missing service is the 503 raised by
get_retrieval_service; then the component_type validation; then the pipeline,
whose exceptions map to a 500. The route always passes top_k = 3. -/
def search_patterns (svcOpt : Option RetrievalService) (requirements : Requirements) :
    Except HTTPError RetrievalResponse :=
  match svcOpt with
  | none => .error { status := 503, detail := "Retrieval service not initialized" }
  | some svc =>
      if requirements.component_type.isNone then
        .error { status := 400, detail := "requirements.component_type is required" }
      else
        match svc.search requirements 3 with
        | .ok r => .ok r
        | .error e =>
            .error { status := 500, detail := "Retrieval search failed: " ++ searchErrMsg e }

/-- Body of the /retrieval/health response. -/
structure HealthStatus where
  status : String
  total_patterns : Nat
  deriving DecidableEq

/-- GET /retrieval/health handler (retrieval.py lines 180-197): the
HTTPException raised by get_retrieval_service on a missing service is caught
and reported as unavailable with zero patterns. -/
def health_check (svcOpt : Option RetrievalService) : HealthStatus :=
  match svcOpt with
  | none => { status := "unavailable", total_patterns := 0 }
  | some svc => { status := "healthy", total_patterns := svc.patterns.length }

/-- Process-wide mutable state relevant to retrieval: the module-level
`_retrieval_service` of retrieval.py (read by the route's dependency) and
`app.state.retrieval_service` written by main.py. -/
structure AppGlobals where
  route_retrieval_service : Option RetrievalService
  app_state_retrieval_service : Option RetrievalService

/-- State at module import time: `_retrieval_service = None` and no app
state. -/
def initialGlobals : AppGlobals :=
  { route_retrieval_service := none, app_state_retrieval_service := none }

/-- set_retrieval_service (retrieval.py lines 100-103): the only writer of
the module-level service. No code in the repository calls it. -/
def set_retrieval_service (g : AppGlobals) (svc : RetrievalService) : AppGlobals :=
  { g with route_retrieval_service := some svc }

/-- Startup (main.py lines 41-133). The whole initialization is wrapped in a
catch-all except that only logs, so startup always completes; `none` would
model an aborted startup and is never produced. On success the service is
stored on app.state only; set_retrieval_service is never invoked, so the
module-level service the route reads stays `none`. The initialization result
(pattern loading, index build) is passed in because file input is external. -/
def lifespan (init : Except String RetrievalService) : Option AppGlobals :=
  match init with
  | .ok svc => some { initialGlobals with app_state_retrieval_service := some svc }
  | .error _ => some initialGlobals

/-- Button pattern fixture for concrete runs. -/
def buttonPattern : Pattern :=
  { id := "button-001", name := "Button", props := ["variant", "size"], variants := ["primary"] }

/-- Second pattern fixture. -/
def cardPattern : Pattern := { id := "card-001", name := "Card" }

/-- Valid requirements fixture. -/
def buttonReq : Requirements := { component_type := some "Button", props := ["variant"] }

/-- Requirements dict without the component_type key. -/
def reqNoType : Requirements := { component_type := none }

/-- Queries the modelled QueryBuilder produces for buttonReq. -/
def buttonQs : Queries :=
  { bm25_query := "Button variant"
  , semantic_query := "A Button component with variant"
  , filters := some "Button" }

/-- A semantic retriever whose search call raises. -/
def failingSemanticRetriever :
    String → Nat → Option String → Except SearchErr (List (Pattern × ℚ)) :=
  fun _ _ _ => .error (.semanticFailure "vector service down")

/-- A semantic retriever that succeeds with no results. -/
def emptySemanticRetriever :
    String → Nat → Option String → Except SearchErr (List (Pattern × ℚ)) :=
  fun _ _ _ => .ok []

/-- Service whose configured semantic retriever raises. -/
def svcSemFailing : RetrievalService :=
  { patterns := [buttonPattern]
  , bm25Retriever := fun _ _ => [(buttonPattern, 5)]
  , semanticRetriever := some failingSemanticRetriever
  , fusion := {} }

/-- Service without a semantic retriever. -/
def svcLexOnly : RetrievalService :=
  { patterns := [buttonPattern]
  , bm25Retriever := fun _ _ => [(buttonPattern, 5)]
  , semanticRetriever := none
  , fusion := {} }

/-- Service whose BM25 channel returns two score-sorted results, semantic
channel absent. -/
def svcTwo : RetrievalService :=
  { patterns := [buttonPattern, cardPattern]
  , bm25Retriever := fun _ _ => [(buttonPattern, 5), (cardPattern, 3)]
  , semanticRetriever := none
  , fusion := {} }

/-- Service whose configured semantic retriever returns no results. -/
def svcSemEmpty : RetrievalService :=
  { patterns := [buttonPattern]
  , bm25Retriever := fun _ _ => [(buttonPattern, 5)]
  , semanticRetriever := some emptySemanticRetriever
  , fusion := {} }

/-- Zero response, used only as the projection default below. -/
def emptyResponse : RetrievalResponse :=
  { patterns := []
  , retrieval_metadata :=
      { methods_used := []
      , weights_bm25 := 0
      , weights_semantic := 0
      , total_patterns_searched := 0
      , query := "" } }

/-- Projects the response out of a successful search result. -/
def respOf (r : Except SearchErr RetrievalResponse) : RetrievalResponse :=
  match r with
  | .ok resp => resp
  | .error _ => emptyResponse

/-- Concrete lexical-only response. -/
def c5Resp : RetrievalResponse := respOf (svcLexOnly.search buttonReq 3)

/-- Concrete two-item lexical-only response. -/
def c8Resp : RetrievalResponse := respOf (svcTwo.search buttonReq 3)

/-- Concrete response with the semantic channel present but empty. -/
def c9Resp : RetrievalResponse := respOf (svcSemEmpty.search buttonReq 3)

/-- Placeholder enriched pattern used as a safe indexing default. -/
def dummyEnriched : EnrichedPattern :=
  enrichDetail { component_type := none }
    { pattern := { id := "" }
    , final_score := 0
    , final_rank := 0
    , bm25_score := 0
    , bm25_rank := none
    , semantic_score := 0
    , semantic_rank := none
    , weights_bm25 := 0
    , weights_semantic := 0 }

/-- Fusion detail carrying a falsy lexical rank and no semantic rank. -/
def c10Detail : FusionDetail :=
  { pattern := buttonPattern
  , final_score := 5
  , final_rank := 1
  , bm25_score := 5
  , bm25_rank := some 0
  , semantic_score := 0
  , semantic_rank := none
  , weights_bm25 := 1
  , weights_semantic := 0 }

/-- BM25 retriever honoring the requested width over a fixed scored corpus. -/
def takeBM25Retriever (ps : List (Pattern × ℚ)) : String → Nat → List (Pattern × ℚ) :=
  fun _ w => ps.take w

/-- Service built on the width-honoring BM25 retriever, semantic channel
absent. -/
def mkTakeService (ps : List (Pattern × ℚ)) : RetrievalService :=
  { patterns := ps.map (fun pr => pr.1)
  , bm25Retriever := takeBM25Retriever ps
  , semanticRetriever := none
  , fusion := {} }

/-- Fixture pattern indexed by a number. -/
def widePattern (i : Nat) : Pattern := { id := "wide-" ++ toString i }

/-- Eleven scored patterns with strictly descending scores. -/
def wideCorpus : List (Pattern × ℚ) :=
  (List.range 11).map (fun i => (widePattern i, (20 : ℚ) - i))

/-- Two scored patterns with descending scores. -/
def smallCorpus : List (Pattern × ℚ) := [(buttonPattern, 5), (cardPattern, 3)]

/-- Globals after a successful startup: the service sits on app.state only. -/
def startedGlobals : AppGlobals :=
  { initialGlobals with app_state_retrieval_service := some svcLexOnly }

/-- The fusion sort order is transitive. -/
theorem fuseLE_trans (a b c : PreDetail) (h1 : fuseLE a b = true) (h2 : fuseLE b c = true) :
    fuseLE a c = true := by
  unfold fuseLE at h1 h2 ⊢
  exact decide_eq_true (le_trans (of_decide_eq_true h1) (of_decide_eq_true h2))

/-- The fusion sort order is total. -/
theorem fuseLE_total (a b : PreDetail) : (fuseLE a b || fuseLE b a) = true := by
  unfold fuseLE
  rcases le_total (fuseKey a) (fuseKey b) with h | h
  · rw [decide_eq_true h]; rfl
  · rw [decide_eq_true h]; exact Bool.or_true _

/-- Candidates earlier in the fusion order have final scores at least as
large. -/
theorem fuseLE_score (a b : PreDetail) (h : fuseLE a b = true) :
    b.final_score ≤ a.final_score := by
  have hk : fuseKey a ≤ fuseKey b := of_decide_eq_true h
  unfold fuseKey at hk
  rcases (Prod.Lex.le_iff _ _).1 hk with h1 | ⟨h1, _⟩
  · exact le_of_lt (neg_lt_neg_iff.1 h1)
  · exact le_of_eq (neg_injective h1).symm

/-- Rank assignment preserves list length. -/
theorem assignRanks_length (wf : WeightedFusion) (n : Nat) (l : List PreDetail) :
    (assignRanks wf n l).length = l.length := by
  induction l generalizing n with
  | nil => rfl
  | cons d ds ih => simp [assignRanks, ih]

/-- Rank assignment emits the contiguous ranks n, n+1, ... in list order. -/
theorem assignRanks_map_rank (wf : WeightedFusion) (n : Nat) (l : List PreDetail) :
    (assignRanks wf n l).map (fun d => d.final_rank) = List.range' n l.length := by
  induction l generalizing n with
  | nil => rfl
  | cons d ds ih => simp [assignRanks, List.range'_succ, ih]

/-- Every rank assigned from n onward is at least n. -/
theorem mem_assignRanks_rank (wf : WeightedFusion) :
    ∀ (n : Nat) (l : List PreDetail) (d : FusionDetail),
      d ∈ assignRanks wf n l → n ≤ d.final_rank := by
  intro n l
  induction l generalizing n with
  | nil => intro d h; simp [assignRanks] at h
  | cons x xs ih =>
      intro d h
      rcases List.mem_cons.1 h with rfl | h'
      · exact Nat.le_refl n
      · exact Nat.le_trans (Nat.le_succ n) (ih (n + 1) d h')

/-- Every assigned detail keeps the final score of a source candidate. -/
theorem mem_assignRanks_score (wf : WeightedFusion) :
    ∀ (n : Nat) (l : List PreDetail) (d : FusionDetail),
      d ∈ assignRanks wf n l → ∃ p ∈ l, d.final_score = p.final_score := by
  intro n l
  induction l generalizing n with
  | nil => intro d h; simp [assignRanks] at h
  | cons x xs ih =>
      intro d h
      rcases List.mem_cons.1 h with rfl | h'
      · exact ⟨x, List.mem_cons_self x xs, rfl⟩
      · rcases ih (n + 1) d h' with ⟨p, hp, he⟩
        exact ⟨p, List.mem_cons_of_mem x hp, he⟩

/-- Rank assignment over a score-sorted list yields strictly increasing
ranks with non-increasing final scores. -/
theorem assignRanks_pairwise (wf : WeightedFusion) :
    ∀ (n : Nat) (l : List PreDetail),
      l.Pairwise (fun a b => b.final_score ≤ a.final_score) →
      (assignRanks wf n l).Pairwise
        (fun a b => a.final_rank < b.final_rank ∧ b.final_score ≤ a.final_score) := by
  intro n l
  induction l generalizing n with
  | nil => intro _; exact List.Pairwise.nil
  | cons x xs ih =>
      intro h
      rcases List.pairwise_cons.1 h with ⟨hx, hxs⟩
      refine List.pairwise_cons.2 ⟨?_, ih (n + 1) hxs⟩
      intro d hd
      refine ⟨Nat.lt_of_lt_of_le (Nat.lt_succ_self n) (mem_assignRanks_rank wf (n + 1) xs d hd), ?_⟩
      rcases mem_assignRanks_score wf (n + 1) xs d hd with ⟨p, hp, he⟩
      exact he ▸ hx p hp

/-- Fallback enumeration preserves list length. -/
theorem fallbackEnum_length (n : Nat) (l : List (Pattern × ℚ)) :
    (fallbackEnum n l).length = l.length := by
  induction l generalizing n with
  | nil => rfl
  | cons pr rest ih => simp [fallbackEnum, ih]

/-- Fallback enumeration emits the contiguous ranks n, n+1, ... in list
order. -/
theorem fallbackEnum_map_rank (n : Nat) (l : List (Pattern × ℚ)) :
    (fallbackEnum n l).map (fun d => d.final_rank) = List.range' n l.length := by
  induction l generalizing n with
  | nil => rfl
  | cons pr rest ih => simp [fallbackEnum, List.range'_succ, ih]

/-- Every fallback rank starting at n is at least n. -/
theorem mem_fallbackEnum_rank :
    ∀ (n : Nat) (l : List (Pattern × ℚ)) (d : FusionDetail),
      d ∈ fallbackEnum n l → n ≤ d.final_rank := by
  intro n l
  induction l generalizing n with
  | nil => intro d h; simp [fallbackEnum] at h
  | cons pr rest ih =>
      intro d h
      rcases List.mem_cons.1 h with rfl | h'
      · exact Nat.le_refl n
      · exact Nat.le_trans (Nat.le_succ n) (ih (n + 1) d h')

/-- Every fallback detail keeps the BM25 score of a source candidate as its
final score. -/
theorem mem_fallbackEnum_score :
    ∀ (n : Nat) (l : List (Pattern × ℚ)) (d : FusionDetail),
      d ∈ fallbackEnum n l → ∃ pr ∈ l, d.final_score = pr.2 := by
  intro n l
  induction l generalizing n with
  | nil => intro d h; simp [fallbackEnum] at h
  | cons pr rest ih =>
      intro d h
      rcases List.mem_cons.1 h with rfl | h'
      · exact ⟨pr, List.mem_cons_self pr rest, rfl⟩
      · rcases ih (n + 1) d h' with ⟨pr', hp, he⟩
        exact ⟨pr', List.mem_cons_of_mem pr hp, he⟩

/-- Every fallback detail is lexical-only: no semantic rank, weights 1 and
0, and final score equal to the BM25 score. -/
theorem mem_fallbackEnum_fields :
    ∀ (n : Nat) (l : List (Pattern × ℚ)) (d : FusionDetail),
      d ∈ fallbackEnum n l →
      d.semantic_rank = none ∧ d.weights_bm25 = 1 ∧ d.weights_semantic = 0 ∧
        d.final_score = d.bm25_score := by
  intro n l
  induction l generalizing n with
  | nil => intro d h; simp [fallbackEnum] at h
  | cons pr rest ih =>
      intro d h
      rcases List.mem_cons.1 h with rfl | h'
      · exact ⟨rfl, rfl, rfl, rfl⟩
      · exact ih (n + 1) d h'

/-- Fallback enumeration over a score-sorted BM25 list yields strictly
increasing ranks with non-increasing final scores. -/
theorem fallbackEnum_pairwise :
    ∀ (n : Nat) (l : List (Pattern × ℚ)),
      l.Pairwise (fun x y => y.2 ≤ x.2) →
      (fallbackEnum n l).Pairwise
        (fun a b => a.final_rank < b.final_rank ∧ b.final_score ≤ a.final_score) := by
  intro n l
  induction l generalizing n with
  | nil => intro _; exact List.Pairwise.nil
  | cons pr rest ih =>
      intro h
      rcases List.pairwise_cons.1 h with ⟨hx, hrest⟩
      refine List.pairwise_cons.2 ⟨?_, ih (n + 1) hrest⟩
      intro d hd
      refine ⟨Nat.lt_of_lt_of_le (Nat.lt_succ_self n) (mem_fallbackEnum_rank (n + 1) rest d hd), ?_⟩
      rcases mem_fallbackEnum_score (n + 1) rest d hd with ⟨pr', hp, he⟩
      exact he ▸ hx pr' hp

/-- Fusion truncates to at most top_k results. -/
theorem fuse_length_le (wf : WeightedFusion) (b s : List (Pattern × ℚ)) (k : Nat) :
    (wf.fuse_with_details b s k).length ≤ k := by
  unfold WeightedFusion.fuse_with_details
  rw [assignRanks_length, List.length_take]
  exact min_le_left _ _

/-- Fusion output ranks are exactly 1, 2, ... in list order. -/
theorem fuse_map_rank (wf : WeightedFusion) (b s : List (Pattern × ℚ)) (k : Nat) :
    (wf.fuse_with_details b s k).map (fun d => d.final_rank) =
      List.range' 1 (wf.fuse_with_details b s k).length := by
  unfold WeightedFusion.fuse_with_details
  rw [assignRanks_map_rank, assignRanks_length]

/-- Fusion output has strictly increasing ranks and non-increasing final
scores, for any channel inputs. -/
theorem fuse_pairwise (wf : WeightedFusion) (b s : List (Pattern × ℚ)) (k : Nat) :
    (wf.fuse_with_details b s k).Pairwise
      (fun a b' => a.final_rank < b'.final_rank ∧ b'.final_score ≤ a.final_score) := by
  unfold WeightedFusion.fuse_with_details
  apply assignRanks_pairwise
  have hs := List.sorted_mergeSort fuseLE_trans fuseLE_total
    ((unionPatterns b s).map (mkPreDetail wf b s))
  have ht := List.Pairwise.sublist (List.take_sublist k _) hs
  exact ht.imp (fun h => fuseLE_score _ _ h)

/-- Every fused rank is at least 1. -/
theorem fuse_mem_rank (wf : WeightedFusion) (b s : List (Pattern × ℚ)) (k : Nat)
    (d : FusionDetail) (h : d ∈ wf.fuse_with_details b s k) : 1 ≤ d.final_rank := by
  unfold WeightedFusion.fuse_with_details at h
  exact mem_assignRanks_rank wf 1 _ d h

/-- Fallback details are at most top_k. -/
theorem fallback_length_le (b : List (Pattern × ℚ)) (k : Nat) :
    (fallbackDetails b k).length ≤ k := by
  unfold fallbackDetails
  rw [fallbackEnum_length, List.length_take]
  exact min_le_left _ _

/-- Fallback ranks are exactly 1, 2, ... in list order. -/
theorem fallback_map_rank (b : List (Pattern × ℚ)) (k : Nat) :
    (fallbackDetails b k).map (fun d => d.final_rank) =
      List.range' 1 (fallbackDetails b k).length := by
  unfold fallbackDetails
  rw [fallbackEnum_map_rank, fallbackEnum_length]

/-- Fallback details over a score-sorted BM25 list have strictly increasing
ranks and non-increasing final scores. -/
theorem fallback_pairwise (b : List (Pattern × ℚ)) (k : Nat)
    (h : b.Pairwise (fun x y => y.2 ≤ x.2)) :
    (fallbackDetails b k).Pairwise
      (fun a b' => a.final_rank < b'.final_rank ∧ b'.final_score ≤ a.final_score) := by
  unfold fallbackDetails
  exact fallbackEnum_pairwise 1 _ (List.Pairwise.sublist (List.take_sublist k b) h)

/-- Every fallback rank is at least 1. -/
theorem fallback_mem_rank (b : List (Pattern × ℚ)) (k : Nat) (d : FusionDetail)
    (h : d ∈ fallbackDetails b k) : 1 ≤ d.final_rank := by
  unfold fallbackDetails at h
  exact mem_fallbackEnum_rank 1 _ d h

/-- Enrichment keeps the fused final rank. -/
theorem enrichDetail_rank (req : Requirements) (d : FusionDetail) :
    (enrichDetail req d).ranking_details.final_rank = d.final_rank := rfl

/-- Enrichment keeps the fused final score. -/
theorem enrichDetail_final_score (req : Requirements) (d : FusionDetail) :
    (enrichDetail req d).ranking_details.final_score = d.final_score := rfl

/-- Enrichment keeps the BM25 score. -/
theorem enrichDetail_bm25_score (req : Requirements) (d : FusionDetail) :
    (enrichDetail req d).ranking_details.bm25_score = d.bm25_score := rfl

/-- The confidence of an enriched item is the modelled pure function of the
fused final score and rank. -/
theorem enrichDetail_confidence (req : Requirements) (d : FusionDetail) :
    (enrichDetail req d).confidence = confidenceOf d.final_score d.final_rank := rfl

/-- Mapping rank extraction through enrichment is rank extraction on the
details. -/
theorem map_rank_enrich (req : Requirements) (details : List FusionDetail) :
    (details.map (enrichDetail req)).map (fun p => p.ranking_details.final_rank) =
      details.map (fun d => d.final_rank) := by
  rw [List.map_map]; rfl

/-- Case analysis of a successful RetrievalService.search call. -/
theorem search_ok_cases (svc : RetrievalService) (req : Requirements) (k : Nat)
    (resp : RetrievalResponse) (h : svc.search req k = .ok resp) :
    ∃ qs, QueryBuilder.build_from_requirements req = .ok qs ∧
      ((svc.semanticRetriever = none ∧
          resp = assembleResponse svc qs req (svc.bm25Retriever qs.bm25_query candidateWidth)
            [] ["bm25"] k) ∨
        (∃ f semantic_results, svc.semanticRetriever = some f ∧
          f qs.semantic_query candidateWidth qs.filters = .ok semantic_results ∧
          resp = assembleResponse svc qs req (svc.bm25Retriever qs.bm25_query candidateWidth)
            semantic_results ["bm25", "semantic"] k)) := by
  unfold RetrievalService.search at h
  cases hq : QueryBuilder.build_from_requirements req with
  | error e => rw [hq] at h; cases h
  | ok qs =>
      rw [hq] at h
      dsimp only at h
      refine ⟨qs, rfl, ?_⟩
      cases hf : svc.semanticRetriever with
      | none =>
          rw [hf] at h
          dsimp only at h
          exact Or.inl ⟨rfl, (Except.ok.inj h).symm⟩
      | some f =>
          rw [hf] at h
          dsimp only at h
          cases hr : f qs.semantic_query candidateWidth qs.filters with
          | error e => rw [hr] at h; cases h
          | ok rs =>
              rw [hr] at h
              dsimp only at h
              exact Or.inr ⟨f, rs, rfl, hr, (Except.ok.inj h).symm⟩

/-- Every successful search response is an enrichment of a details list with
length at most top_k and contiguous ranks from 1. -/
theorem search_ok_details (svc : RetrievalService) (req : Requirements) (k : Nat)
    (resp : RetrievalResponse) (h : svc.search req k = .ok resp) :
    ∃ details : List FusionDetail,
      resp.patterns = details.map (enrichDetail req) ∧
      details.length ≤ k ∧
      details.map (fun d => d.final_rank) = List.range' 1 details.length := by
  rcases search_ok_cases svc req k resp h with ⟨qs, _, hcase⟩
  rcases hcase with ⟨_, hresp⟩ | ⟨f, rs, _, _, hresp⟩
  · refine ⟨fallbackDetails (svc.bm25Retriever qs.bm25_query candidateWidth) k, ?_, ?_, ?_⟩
    · rw [hresp]; rfl
    · exact fallback_length_le _ _
    · exact fallback_map_rank _ _
  · by_cases hrs : rs.isEmpty
    · refine ⟨fallbackDetails (svc.bm25Retriever qs.bm25_query candidateWidth) k, ?_, ?_, ?_⟩
      · rw [hresp]; unfold assembleResponse; rw [if_pos hrs]
      · exact fallback_length_le _ _
      · exact fallback_map_rank _ _
    · refine ⟨svc.fusion.fuse_with_details (svc.bm25Retriever qs.bm25_query candidateWidth) rs k,
        ?_, ?_, ?_⟩
      · rw [hresp]; unfold assembleResponse; rw [if_neg hrs]
      · exact fuse_length_le _ _ _ _
      · exact fuse_map_rank _ _ _ _

/-- Every successful search response, when the BM25 channel returns
score-sorted lists, is an enrichment of a details list with strictly
increasing ranks at least 1 and non-increasing final scores. -/
theorem search_ok_details_sorted (svc : RetrievalService) (req : Requirements) (k : Nat)
    (resp : RetrievalResponse)
    (hsorted : ∀ q w, (svc.bm25Retriever q w).Pairwise (fun x y => y.2 ≤ x.2))
    (h : svc.search req k = .ok resp) :
    ∃ details : List FusionDetail,
      resp.patterns = details.map (enrichDetail req) ∧
      details.Pairwise
        (fun a b' => a.final_rank < b'.final_rank ∧ b'.final_score ≤ a.final_score) ∧
      ∀ d ∈ details, 1 ≤ d.final_rank := by
  rcases search_ok_cases svc req k resp h with ⟨qs, _, hcase⟩
  rcases hcase with ⟨_, hresp⟩ | ⟨f, rs, _, _, hresp⟩
  · refine ⟨fallbackDetails (svc.bm25Retriever qs.bm25_query candidateWidth) k, ?_, ?_, ?_⟩
    · rw [hresp]; rfl
    · exact fallback_pairwise _ _ (hsorted _ _)
    · exact fun d hd => fallback_mem_rank _ _ d hd
  · by_cases hrs : rs.isEmpty
    · refine ⟨fallbackDetails (svc.bm25Retriever qs.bm25_query candidateWidth) k, ?_, ?_, ?_⟩
      · rw [hresp]; unfold assembleResponse; rw [if_pos hrs]
      · exact fallback_pairwise _ _ (hsorted _ _)
      · exact fun d hd => fallback_mem_rank _ _ d hd
    · refine ⟨svc.fusion.fuse_with_details (svc.bm25Retriever qs.bm25_query candidateWidth) rs k,
        ?_, ?_, ?_⟩
      · rw [hresp]; unfold assembleResponse; rw [if_neg hrs]
      · exact fuse_pairwise _ _ _ _
      · exact fun d hd => fuse_mem_rank _ _ _ _ d hd

/-- Pairwise relation instances for any two members of a list. -/
theorem pairwiseMemCases {α : Type} {R : α → α → Prop} :
    ∀ {l : List α}, l.Pairwise R → ∀ {a b : α}, a ∈ l → b ∈ l → a = b ∨ R a b ∨ R b a := by
  intro l h
  induction h with
  | nil => intro a b ha _; cases ha
  | cons hx _ ih =>
      intro a b ha hb
      rcases List.mem_cons.1 ha with rfl | ha'
      · rcases List.mem_cons.1 hb with rfl | hb'
        · exact Or.inl rfl
        · exact Or.inr (Or.inl (hx b hb'))
      · rcases List.mem_cons.1 hb with rfl | hb'
        · exact Or.inr (Or.inr (hx a ha'))
        · exact ih ha' hb'

/-- The modelled confidence is non-increasing when the score drops and the
rank grows. -/
theorem confidenceOf_mono (sa sb : ℚ) (ra rb : Nat) (hs : sb ≤ sa) (h1 : 1 ≤ ra)
    (hr : ra < rb) : confidenceOf sb rb ≤ confidenceOf sa ra := by
  unfold confidenceOf clamp01
  have h0a : (0 : ℚ) ≤ min 1 (max 0 sb) := le_min (by norm_num) (le_max_left 0 sb)
  have hba : min 1 (max 0 sb) ≤ min 1 (max 0 sa) :=
    min_le_min (le_refl 1) (max_le_max (le_refl 0) hs)
  have hra : (0 : ℚ) < (ra : ℚ) := by exact_mod_cast Nat.lt_of_lt_of_le Nat.zero_lt_one h1
  have hrb : (ra : ℚ) ≤ (rb : ℚ) := by exact_mod_cast Nat.le_of_lt hr
  exact div_le_div₀ (le_trans h0a hba) hba hra hrb

/-- C5: for every request and top_k on which search returns successfully, at
most top_k patterns come back, their final_rank values are exactly 1, 2, ...
contiguous and strictly increasing in returned order, and top_k = 0 yields an
empty patterns list. -/
theorem search_topk_ranks (svc : RetrievalService) (req : Requirements) (top_k : Nat)
    (resp : RetrievalResponse) (h : svc.search req top_k = .ok resp) :
    resp.patterns.length ≤ top_k ∧
    resp.patterns.map (fun p => p.ranking_details.final_rank) =
      List.range' 1 resp.patterns.length ∧
    (top_k = 0 → resp.patterns = []) := by
  rcases search_ok_details svc req top_k resp h with ⟨details, hp, hlen, hrank⟩
  have hlen2 : resp.patterns.length = details.length := by rw [hp, List.length_map]
  refine ⟨?_, ?_, ?_⟩
  · rw [hlen2]; exact hlen
  · rw [hp, map_rank_enrich, hrank, List.length_map]
  · intro h0
    subst h0
    rw [hp]
    have h1 : details.length = 0 := Nat.le_zero.1 hlen
    rw [List.eq_nil_of_length_eq_zero h1]
    rfl

/-- Witness for C5 on a concrete lexical-only run. -/
theorem search_topk_ranks_witness :
    c5Resp.patterns.length ≤ 3 ∧
    c5Resp.patterns.map (fun p => p.ranking_details.final_rank) =
      List.range' 1 c5Resp.patterns.length :=
  ⟨(search_topk_ranks svcLexOnly buttonReq 3 c5Resp rfl).1,
   (search_topk_ranks svcLexOnly buttonReq 3 c5Resp rfl).2.1⟩

/-- C8: within one successful response batch (the BM25 channel returning
score-sorted candidate lists), confidence is monotonically non-increasing in
final_rank: any returned item with strictly smaller final_rank has confidence
at least that of an item with larger final_rank. -/
theorem confidence_monotone (svc : RetrievalService) (req : Requirements) (top_k : Nat)
    (resp : RetrievalResponse)
    (hsorted : ∀ q w, (svc.bm25Retriever q w).Pairwise (fun x y => y.2 ≤ x.2))
    (h : svc.search req top_k = .ok resp) :
    ∀ p ∈ resp.patterns, ∀ p' ∈ resp.patterns,
      p.ranking_details.final_rank < p'.ranking_details.final_rank →
      p'.confidence ≤ p.confidence := by
  rcases search_ok_details_sorted svc req top_k resp hsorted h with ⟨details, hp, hpw, hmem⟩
  have hpw2 : details.Pairwise (fun a b =>
      a.final_rank < b.final_rank ∧
        confidenceOf b.final_score b.final_rank ≤ confidenceOf a.final_score a.final_rank) := by
    refine List.Pairwise.imp_of_mem ?_ hpw
    intro a b ha _ hr
    exact ⟨hr.1,
      confidenceOf_mono a.final_score b.final_score a.final_rank b.final_rank hr.2
        (hmem a ha) hr.1⟩
  have hpw3 : resp.patterns.Pairwise (fun x y =>
      x.ranking_details.final_rank < y.ranking_details.final_rank ∧
        y.confidence ≤ x.confidence) := by
    rw [hp]
    exact List.pairwise_map.2 hpw2
  intro p hp1 p' hp2 hlt
  rcases pairwiseMemCases hpw3 hp1 hp2 with rfl | hR | hR
  · exact absurd hlt (lt_irrefl _)
  · exact hR.2
  · exact absurd (Nat.lt_trans hlt hR.1) (lt_irrefl _)

/-- Membership of an in-range default-indexed element. -/
theorem getD_mem_of_lt {α : Type} (l : List α) (n : Nat) (d : α) (h : n < l.length) :
    l.getD n d ∈ l := by
  rw [List.getD_eq_getElem l d h]
  exact List.getElem_mem h

/-- Witness for C8 on a concrete two-item batch. -/
theorem confidence_monotone_witness :
    (c8Resp.patterns.getD 1 dummyEnriched).confidence ≤
      (c8Resp.patterns.getD 0 dummyEnriched).confidence := by
  refine confidence_monotone svcTwo buttonReq 3 c8Resp ?_ rfl
    (c8Resp.patterns.getD 0 dummyEnriched)
    (getD_mem_of_lt c8Resp.patterns 0 dummyEnriched (by decide))
    (c8Resp.patterns.getD 1 dummyEnriched)
    (getD_mem_of_lt c8Resp.patterns 1 dummyEnriched (by decide))
    (by decide)
  intro q w
  exact (by decide :
    List.Pairwise (fun x y : Pattern × ℚ => y.2 ≤ x.2) [(buttonPattern, 5), (cardPattern, 3)])

/-- C1 counterexample: with a configured semantic retriever whose search
call raises, the orchestrator's search itself returns an error instead of a
successful lexical-only response — nothing is caught at retrieval_service.py
line 113. -/
theorem semantic_failure_not_caught_cex :
    svcSemFailing.search buttonReq 3 =
      Except.error (SearchErr.semanticFailure "vector service down") := rfl

/-- C1 (amended): when the configured semantic retriever's search call
raises, the exception propagates uncaught out of RetrievalService.search
(the route layer then surfaces it as HTTP 500); lexical-only degradation
happens only when the retriever is absent or returned no results. -/
theorem semantic_failure_propagates (svc : RetrievalService) (req : Requirements)
    (top_k : Nat)
    (f : String → Nat → Option String → Except SearchErr (List (Pattern × ℚ)))
    (qs : Queries) (e : SearchErr)
    (hf : svc.semanticRetriever = some f)
    (hq : QueryBuilder.build_from_requirements req = .ok qs)
    (he : f qs.semantic_query candidateWidth qs.filters = .error e) :
    svc.search req top_k = .error e := by
  unfold RetrievalService.search
  rw [hq]
  dsimp only
  rw [hf]
  dsimp only
  rw [he]

/-- Witness for the amended C1 at a concrete raising retriever. -/
theorem semantic_failure_propagates_witness :
    svcSemFailing.search buttonReq 3 =
      Except.error (SearchErr.semanticFailure "vector service down") :=
  semantic_failure_propagates svcSemFailing buttonReq 3 failingSemanticRetriever buttonQs
    (SearchErr.semanticFailure "vector service down") rfl rfl rfl

/-- C2 counterexample: with the semantic channel absent, the response's
metadata weights are the fusion's configured defaults 0.3/0.7, not
lexical 1.0 / semantic 0.0 as claimed. -/
theorem fallback_metadata_weights_cex :
    (svcLexOnly.search buttonReq 3).toOption.map
        (fun r => (r.retrieval_metadata.weights_bm25, r.retrieval_metadata.weights_semantic)) =
      some (svcLexOnly.fusion.bm25_weight, svcLexOnly.fusion.semantic_weight) ∧
    svcLexOnly.fusion.bm25_weight = 3 / 10 ∧
    svcLexOnly.fusion.semantic_weight = 7 / 10 ∧
    ¬ ((3 / 10 : ℚ) = 1 ∧ (7 / 10 : ℚ) = 0) :=
  ⟨rfl, rfl, rfl, by norm_num⟩

/-- C2 (amended): when the semantic retriever is absent, methods_used is
exactly the lexical channel, every returned item's final score equals its
BM25 score, and the per-item fallback weights are lexical 1.0 / semantic
0.0 — but retrieval_metadata.weights always reports the fusion's configured
weights (0.3/0.7 by default). The thrown case produces no response at all. -/
theorem fallback_lexical_only (svc : RetrievalService) (req : Requirements) (top_k : Nat)
    (resp : RetrievalResponse) (hsem : svc.semanticRetriever = none)
    (h : svc.search req top_k = .ok resp) :
    resp.retrieval_metadata.methods_used = ["bm25"] ∧
    resp.retrieval_metadata.weights_bm25 = svc.fusion.bm25_weight ∧
    resp.retrieval_metadata.weights_semantic = svc.fusion.semantic_weight ∧
    (∀ p ∈ resp.patterns, p.ranking_details.final_score = p.ranking_details.bm25_score) ∧
    (∀ (l : List (Pattern × ℚ)) (k : Nat) (d : FusionDetail),
      d ∈ fallbackDetails l k → d.weights_bm25 = 1 ∧ d.weights_semantic = 0) := by
  rcases search_ok_cases svc req top_k resp h with ⟨qs, hq, hcase⟩
  rcases hcase with ⟨_, hresp⟩ | ⟨f, rs, hf, _, _⟩
  · have hpat : resp.patterns =
        (fallbackDetails (svc.bm25Retriever qs.bm25_query candidateWidth) top_k).map
          (enrichDetail req) := by rw [hresp]; rfl
    refine ⟨by rw [hresp]; rfl, by rw [hresp]; rfl, by rw [hresp]; rfl, ?_, ?_⟩
    · intro p hp
      rw [hpat] at hp
      rcases List.mem_map.1 hp with ⟨d, hd, rfl⟩
      have hfld := mem_fallbackEnum_fields 1 _ d hd
      rw [enrichDetail_final_score, enrichDetail_bm25_score]
      exact hfld.2.2.2
    · intro l k d hd
      have hfld := mem_fallbackEnum_fields 1 _ d hd
      exact ⟨hfld.2.1, hfld.2.2.1⟩
  · rw [hsem] at hf; cases hf

/-- Witness for the amended C2 on a concrete lexical-only run. -/
theorem fallback_lexical_only_witness :
    c5Resp.retrieval_metadata.methods_used = ["bm25"] ∧
    c5Resp.retrieval_metadata.weights_bm25 = svcLexOnly.fusion.bm25_weight ∧
    c5Resp.retrieval_metadata.weights_semantic = svcLexOnly.fusion.semantic_weight :=
  ⟨(fallback_lexical_only svcLexOnly buttonReq 3 c5Resp rfl rfl).1,
   (fallback_lexical_only svcLexOnly buttonReq 3 c5Resp rfl rfl).2.1,
   (fallback_lexical_only svcLexOnly buttonReq 3 c5Resp rfl rfl).2.2.1⟩

/-- C9: a configured semantic retriever that returns the empty list still
puts "semantic" into methods_used, while fusion is bypassed: the response
patterns are exactly the enriched BM25-only fallback entries, each carrying
no semantic rank, per-item weights lexical 1.0 / semantic 0.0, and a final
score equal to its BM25 score. -/
theorem semantic_empty_counts (svc : RetrievalService) (req : Requirements) (top_k : Nat)
    (resp : RetrievalResponse)
    (f : String → Nat → Option String → Except SearchErr (List (Pattern × ℚ)))
    (qs : Queries)
    (hf : svc.semanticRetriever = some f)
    (hq : QueryBuilder.build_from_requirements req = .ok qs)
    (he : f qs.semantic_query candidateWidth qs.filters = .ok [])
    (h : svc.search req top_k = .ok resp) :
    resp.retrieval_metadata.methods_used = ["bm25", "semantic"] ∧
    resp.patterns =
      (fallbackDetails (svc.bm25Retriever qs.bm25_query candidateWidth) top_k).map
        (enrichDetail req) ∧
    ∀ d ∈ fallbackDetails (svc.bm25Retriever qs.bm25_query candidateWidth) top_k,
      d.semantic_rank = none ∧ d.weights_bm25 = 1 ∧ d.weights_semantic = 0 ∧
        d.final_score = d.bm25_score := by
  rcases search_ok_cases svc req top_k resp h with ⟨qs', hq', hcase⟩
  rw [hq] at hq'
  have hqs : qs' = qs := (Except.ok.inj hq').symm
  subst hqs
  rcases hcase with ⟨hnone, _⟩ | ⟨f', rs, hf', he', hresp⟩
  · rw [hf] at hnone; cases hnone
  · rw [hf] at hf'
    have hff : f' = f := (Option.some.inj hf').symm
    subst hff
    rw [he] at he'
    have hrs : rs = [] := (Except.ok.inj he').symm
    subst hrs
    refine ⟨by rw [hresp]; rfl, by rw [hresp]; rfl, ?_⟩
    intro d hd
    exact mem_fallbackEnum_fields 1 _ d hd

/-- Witness for C9 on a concrete empty-semantic run. -/
theorem semantic_empty_counts_witness :
    c9Resp.retrieval_metadata.methods_used = ["bm25", "semantic"] ∧
    c9Resp.patterns =
      (fallbackDetails (svcSemEmpty.bm25Retriever buttonQs.bm25_query candidateWidth) 3).map
        (enrichDetail buttonReq) :=
  ⟨(semantic_empty_counts svcSemEmpty buttonReq 3 c9Resp emptySemanticRetriever buttonQs
      rfl rfl rfl rfl).1,
   (semantic_empty_counts svcSemEmpty buttonReq 3 c9Resp emptySemanticRetriever buttonQs
      rfl rfl rfl rfl).2.1⟩

/-- C10: before confidence and explanation are computed, a missing semantic
rank (None) and an absent or falsy lexical rank are replaced by the numeric
sentinel 999 in the arguments handed to the explainer. -/
theorem missing_rank_sentinel (req : Requirements) (d : FusionDetail) :
    (d.semantic_rank = none → (explainArgsOf req d).semantic_rank = 999) ∧
    ((d.bm25_rank = none ∨ d.bm25_rank = some 0) → (explainArgsOf req d).bm25_rank = 999) := by
  constructor
  · intro h
    simp [explainArgsOf, rankOr999, h]
  · intro h
    rcases h with h | h <;> simp [explainArgsOf, rankOr999, h]

/-- Witness for C10 on a detail with no semantic rank and a falsy lexical
rank. -/
theorem missing_rank_sentinel_witness :
    (explainArgsOf buttonReq c10Detail).semantic_rank = 999 ∧
    (explainArgsOf buttonReq c10Detail).bm25_rank = 999 :=
  ⟨(missing_rank_sentinel buttonReq c10Detail).1 rfl,
   (missing_rank_sentinel buttonReq c10Detail).2 (Or.inr rfl)⟩

/-- C6: with the dependency resolved, a requirements dict lacking
component_type is rejected with HTTP 400 — the result is that validation
error whatever the injected service would have computed, so the pipeline is
not consulted — while a dict carrying component_type is handed to the
pipeline (whose exceptions surface as HTTP 500) and is never rejected with a
400. -/
theorem component_type_validation (svc : RetrievalService) (req : Requirements) :
    (req.component_type = none →
      search_patterns (some svc) req =
        .error { status := 400, detail := "requirements.component_type is required" }) ∧
    (∀ ct, req.component_type = some ct →
      search_patterns (some svc) req =
        (svc.search req 3).mapError
          (fun e => { status := 500, detail := "Retrieval search failed: " ++ searchErrMsg e }) ∧
      ∀ d, search_patterns (some svc) req ≠ .error { status := 400, detail := d }) := by
  constructor
  · intro h
    unfold search_patterns
    rw [h]
    rfl
  · intro ct hct
    have hmain : search_patterns (some svc) req =
        (svc.search req 3).mapError
          (fun e => { status := 500, detail := "Retrieval search failed: " ++ searchErrMsg e }) := by
      unfold search_patterns
      rw [hct]
      dsimp only
      cases hs : svc.search req 3 with
      | ok r => rfl
      | error e => rfl
    refine ⟨hmain, ?_⟩
    intro d hcontra
    rw [hmain] at hcontra
    cases hs : svc.search req 3 with
    | ok r =>
        rw [hs] at hcontra
        cases hcontra
    | error e =>
        rw [hs] at hcontra
        have := Except.error.inj hcontra
        have h400 : (500 : Nat) = 400 := congrArg HTTPError.status this
        cases h400

/-- Witness for C6: the missing-key rejection and the pass-through, both at
a concrete service. -/
theorem component_type_validation_witness :
    search_patterns (some svcLexOnly) reqNoType =
      Except.error { status := 400, detail := "requirements.component_type is required" } ∧
    search_patterns (some svcLexOnly) buttonReq =
      (svcLexOnly.search buttonReq 3).mapError
        (fun e => { status := 500, detail := "Retrieval search failed: " ++ searchErrMsg e }) :=
  ⟨(component_type_validation svcLexOnly reqNoType).1 rfl,
   ((component_type_validation svcLexOnly buttonReq).2 "Button" rfl).1⟩

/-- C3: whatever the startup outcome, the module-level service read by the
route stays none — startup writes only app.state and nothing in the
repository calls set_retrieval_service — so every search request is answered
with HTTP 503 "Retrieval service not initialized" and the retrieval health
endpoint reports unavailable with zero patterns. -/
theorem service_never_initialized (init : Except String RetrievalService) (g : AppGlobals)
    (req : Requirements) (h : lifespan init = some g) :
    g.route_retrieval_service = none ∧
    search_patterns g.route_retrieval_service req =
      .error { status := 503, detail := "Retrieval service not initialized" } ∧
    health_check g.route_retrieval_service =
      { status := "unavailable", total_patterns := 0 } := by
  cases init with
  | ok svc =>
      have hg : { initialGlobals with app_state_retrieval_service := some svc } = g :=
        Option.some.inj h
      rw [← hg]
      exact ⟨rfl, rfl, rfl⟩
  | error e =>
      have hg : initialGlobals = g := Option.some.inj h
      rw [← hg]
      exact ⟨rfl, rfl, rfl⟩

/-- Witness for C3: even a fully successful startup leaves the route-level
service uninitialized. -/
theorem service_never_initialized_witness :
    startedGlobals.route_retrieval_service = none ∧
    search_patterns startedGlobals.route_retrieval_service buttonReq =
      Except.error { status := 503, detail := "Retrieval service not initialized" } ∧
    health_check startedGlobals.route_retrieval_service =
      { status := "unavailable", total_patterns := 0 } :=
  service_never_initialized (Except.ok svcLexOnly) startedGlobals buttonReq rfl

/-- C4 counterexample: a failed lexical-index initialization is swallowed by
the catch-all at main.py lines 128-131, so startup still completes into a
serving state instead of failing fast. -/
theorem startup_not_fail_fast_cex :
    lifespan (Except.error "lexical index failed to build") = some initialGlobals := rfl

/-- C4 (amended): any retrieval initialization failure at startup is caught
and only logged; startup completes and the app serves, with the retrieval
route answering HTTP 503 because the route-level service was never
installed. -/
theorem startup_completes_on_index_failure (e : String) (req : Requirements) :
    lifespan (Except.error e) = some initialGlobals ∧
    search_patterns initialGlobals.route_retrieval_service req =
      Except.error { status := 503, detail := "Retrieval service not initialized" } :=
  ⟨rfl, rfl⟩

/-- C7 counterexample: both channels are queried at the fixed width 10
regardless of top_k; with top_k = 11 over an eleven-pattern corpus and a
width-honoring BM25 retriever, the response holds only ten patterns, so
fusion did not receive top_k candidates' worth of material. -/
theorem candidate_width_not_topk_cex :
    candidateWidth < 11 ∧
    ((mkTakeService wideCorpus).search buttonReq 11).toOption.map
      (fun r => r.patterns.length) = some 10 :=
  ⟨by decide, by decide⟩

/-- C7 (amended): the channels are queried at the fixed candidateWidth = 10
rather than a width tracking top_k, so each channel supplies at least top_k
candidates only when top_k ≤ 10 (the HTTP route always asks for top_k = 3):
over a corpus of at least top_k patterns, a width-honoring BM25 retriever
then fills the response with exactly top_k patterns. -/
theorem candidate_width_sufficient (ps : List (Pattern × ℚ)) (req : Requirements)
    (ct : String) (k : Nat) (hct : req.component_type = some ct)
    (hk : k ≤ candidateWidth) (hlen : k ≤ ps.length) :
    ((mkTakeService ps).search req k).toOption.map (fun r => r.patterns.length) = some k := by
  cases hq : QueryBuilder.build_from_requirements req with
  | error e =>
      unfold QueryBuilder.build_from_requirements at hq
      rw [hct] at hq
      cases hq
  | ok qs =>
      have hsearch : (mkTakeService ps).search req k =
          .ok (assembleResponse (mkTakeService ps) qs req (ps.take candidateWidth)
            [] ["bm25"] k) := by
        unfold RetrievalService.search
        rw [hq]
        rfl
      have hpat : (assembleResponse (mkTakeService ps) qs req (ps.take candidateWidth)
          [] ["bm25"] k).patterns.length = k := by
        show ((fallbackDetails (ps.take candidateWidth) k).map (enrichDetail req)).length = k
        rw [List.length_map]
        unfold fallbackDetails
        rw [fallbackEnum_length, List.take_take, List.length_take]
        rw [min_eq_left hk]
        exact min_eq_left hlen
      rw [hsearch]
      exact congrArg some hpat

/-- Witness for the amended C7 at a two-pattern corpus and top_k = 2. -/
theorem candidate_width_sufficient_witness :
    ((mkTakeService smallCorpus).search buttonReq 2).toOption.map
      (fun r => r.patterns.length) = some 2 :=
  candidate_width_sufficient smallCorpus buttonReq "Button" 2 rfl (by decide) (by decide)
